import Mathlib

/-!
Verification development for the BLUX Guard trust core.

The development shallowly embeds the guard receipt engine
(`blux_guard/core/receipt.py`), the trip rule engine
(`blux_modules/security/trip_engine.py`) and the audit-chain verifier
(`blux_guard/core/security_cockpit.py`).  Python dictionaries are modelled
as ordered association lists, machine floats used only as timestamps are
modelled as integers, and the cryptographic primitives (HMAC-SHA256,
SHA-256) are treated as parameters of the development.
-/

namespace BluxGuard

/-- JSON-like values as processed by the guard.  Objects are ordered
association lists, mirroring Python dict insertion order.  Numbers are
modelled as integers: every numeric field the trust core manipulates in the
claims under study (timestamps, timeouts, counters, limits) is integral. -/
inductive Json where
  | null : Json
  | bool : Bool → Json
  | num  : Int → Json
  | str  : String → Json
  | arr  : List Json → Json
  | obj  : List (String × Json) → Json
deriving Repr

/-- Python `d.get(k)` on a dict: first binding of the key, if any. -/
def dictGet (d : List (String × Json)) (k : String) : Option Json :=
  match d.find? (fun kv => kv.1 == k) with
  | some kv => some kv.2
  | none => none

/-- Python `payload.pop(k, None)` / building `dict(receipt)` without a key. -/
def dictRemove (d : List (String × Json)) (k : String) : List (String × Json) :=
  d.filter (fun kv => kv.1 != k)

/-- Python `d[k] = v` on a dict: replace in place, or append a new binding. -/
def dictSet (d : List (String × Json)) (k : String) (v : Json) : List (String × Json) :=
  if (d.find? (fun kv => kv.1 == k)).isSome then
    d.map (fun kv => if kv.1 == k then (kv.1, v) else kv)
  else d ++ [(k, v)]

/-- Lexicographic code-point comparison on character lists (Python's `str`
ordering, used by `sort_keys=True`). -/
def strLeList : List Char → List Char → Bool
  | [], _ => true
  | _ :: _, [] => false
  | a :: as, b :: bs =>
    if a.toNat < b.toNat then true
    else if b.toNat < a.toNat then false
    else strLeList as bs

def strLe (a b : String) : Bool := strLeList a.data b.data

/-- Insertion step for sorting object keys. -/
def insertKV (kv : String × Json) : List (String × Json) → List (String × Json)
  | [] => [kv]
  | x :: xs => if strLe kv.1 x.1 then kv :: x :: xs else x :: insertKV kv xs

/-- Sort an association list by key (the `sort_keys=True` behaviour of
`json.dumps`; insertion sort, extensionally any sort by key). -/
def sortKVs (kvs : List (String × Json)) : List (String × Json) :=
  kvs.foldr insertKV []

mutual
/-- Recursively sort every object's keys, the normalization `json.dumps`
applies before printing when `sort_keys=True`. -/
def Json.normalize : Json → Json
  | .null => .null
  | .bool b => .bool b
  | .num n => .num n
  | .str s => .str s
  | .arr xs => .arr (normalizeList xs)
  | .obj kvs => .obj (sortKVs (normalizeKVs kvs))

def normalizeList : List Json → List Json
  | [] => []
  | x :: xs => x.normalize :: normalizeList xs

def normalizeKVs : List (String × Json) → List (String × Json)
  | [] => []
  | (k, v) :: rest => (k, v.normalize) :: normalizeKVs rest
end

def hexDigitChar (n : Nat) : Char :=
  if n < 10 then Char.ofNat (48 + n) else Char.ofNat (87 + n)

def hex4 (n : Nat) : String :=
  String.mk [hexDigitChar (n / 4096 % 16), hexDigitChar (n / 256 % 16),
             hexDigitChar (n / 16 % 16), hexDigitChar (n % 16)]

/-- JSON string escaping as produced by `json.dumps(..., ensure_ascii=False)`. -/
def escapeChar (c : Char) : String :=
  if c = '"' then "\\\""
  else if c = '\\' then "\\\\"
  else if c = '\n' then "\\n"
  else if c = '\t' then "\\t"
  else if c = '\r' then "\\r"
  else if c.toNat == 8 then "\\b"
  else if c.toNat == 12 then "\\f"
  else if c.toNat < 32 then "\\u" ++ hex4 c.toNat
  else String.singleton c

def jsonQuote (s : String) : String :=
  "\"" ++ String.join (s.data.map escapeChar) ++ "\""

mutual
/-- Compact JSON printing with separators `(",", ":")`. -/
def serializeJson : Json → String
  | .null => "null"
  | .bool true => "true"
  | .bool false => "false"
  | .num n => toString n
  | .str s => jsonQuote s
  | .arr xs => "[" ++ serializeList xs ++ "]"
  | .obj kvs => "\x7b" ++ serializeObj kvs ++ "\x7d"

def serializeList : List Json → String
  | [] => ""
  | [x] => serializeJson x
  | x :: y :: xs => serializeJson x ++ "," ++ serializeList (y :: xs)

def serializeObj : List (String × Json) → String
  | [] => ""
  | [(k, v)] => jsonQuote k ++ ":" ++ serializeJson v
  | (k, v) :: y :: xs => jsonQuote k ++ ":" ++ serializeJson v ++ "," ++ serializeObj (y :: xs)
end

/-- `_canonical_json` from `receipt.py`:
`json.dumps(payload, sort_keys=True, separators=(",", ":"), ensure_ascii=False)`. -/
def canonical_json (payload : List (String × Json)) : String :=
  serializeJson (Json.normalize (.obj payload))

/-- `_sign_payload` from `receipt.py`: HMAC-SHA256 hexdigest of the canonical
JSON of the payload under the secret.  The MAC primitive
(`hmac.new(secret, message, sha256).hexdigest()`) is a cryptographic black
box; the development is parameterized by it as `mac : secret → message → tag`. -/
def sign_payload (mac : String → String → String) (payload : List (String × Json))
    (secret : String) : String :=
  mac secret (canonical_json payload)

/-! Path normalization: `str(Path(s))` for POSIX paths collapses repeated
separators, drops `.` components and any trailing separator; a lone empty
or `.` path becomes `.`; a double (but not triple) leading slash is kept. -/

def splitSlash : List Char → List (List Char)
  | [] => [[]]
  | '/' :: rest => [] :: splitSlash rest
  | c :: rest =>
    match splitSlash rest with
    | [] => [[c]]
    | g :: gs => (c :: g) :: gs

def leadSlashes : List Char → String
  | '/' :: '/' :: '/' :: _ => "/"
  | '/' :: '/' :: _ => "//"
  | '/' :: _ => "/"
  | _ => ""

def joinSlash : List (List Char) → String
  | [] => ""
  | [c] => String.mk c
  | c :: d :: rest => String.mk c ++ "/" ++ joinSlash (d :: rest)

/-- `str(Path(s))` as used for `working_dir` in `evaluate_receipt`. -/
def pathStr (s : String) : String :=
  let comps := (splitSlash s.data).filter (fun c => !c.isEmpty && c != ['.'])
  let lead := leadSlashes s.data
  let body := joinSlash comps
  if body == "" then (if lead == "" then "." else lead) else lead ++ body

/-! Token verification results (`reg_integration.TokenVerification`). -/

structure TokenVerification where
  token : String
  valid : Bool
  token_ref : String
  reason_codes : List String
  metadata : List (String × String)
deriving Repr

/-- A request envelope after schema validation.  Modelled from the spec:
the JSON schema files under `blux_guard/contracts/` are not present in the
source tree, so a schema-valid envelope is represented as a record whose
optional fields are exactly the ones `evaluate_receipt` reads, typed as the
spec's data model (§3) gives them.  An absent field is `none`. -/
structure Envelope where
  trace_id : Option String
  capability_token_ref : Option String
  capability_tokens : Option (List String)
  capability_token : Option String
  working_dir : Option String
  allowed_commands : Option (List String)
  command : Option String
  allowed_paths : Option (List String)
  sandbox_profile : Option String
  timeout_s : Option Int
  resource_limits : Option Json
  network : Option Json
  env_allowlist : Option (List String)
  env_denylist : Option (List String)
deriving Repr

/-- A discernment report after schema validation (spec §3), same modelling
convention as `Envelope`. -/
structure Discernment where
  risk_level : Option String
  posture : Option String
  requires_confirmation : Option Bool
  summary : Option String
deriving Repr

/-- ASCII lowercasing (Python `str.lower()`; the risk-level vocabulary the
guard compares against is ASCII). -/
def lowerChar (c : Char) : Char :=
  if 65 ≤ c.toNat && c.toNat ≤ 90 then Char.ofNat (c.toNat + 32) else c

def lowerStr (s : String) : String := String.mk (s.data.map lowerChar)

/-- `_parse_risk_level` from `receipt.py`. -/
def parse_risk_level (discernment : Option Discernment) : Option String :=
  (discernment.bind (fun d => d.risk_level)).map lowerStr

def default_env_allowlist : List String :=
  ["PATH", "LANG", "LC_ALL", "LC_CTYPE", "HOME"]

def default_env_denylist : List String :=
  ["AWS_SECRET_ACCESS_KEY", "AWS_SESSION_TOKEN", "GITHUB_TOKEN"]

def default_resource_limits : Json :=
  .obj [("cpu_seconds", .num 120), ("memory_mb", .num 512), ("processes", .num 64)]

def GUARD_RECEIPT_SCHEMA_ID : String := "blux://contracts/guard_receipt.schema.json"

def SIGNATURE_ALG : String := "HMAC-SHA256"

/-- The `GuardReceipt` dataclass. -/
structure GuardReceipt where
  receipt_id : String
  issued_at : Int
  decision : String
  trace_id : String
  capability_token_ref : String
  constraints : List (String × Json)
  token_status : String
  reason_codes : List String
  discernment : List (String × Json)
  signature : List (String × Json)
deriving Repr

/-- `GuardReceipt.to_dict`. -/
def GuardReceipt.to_dict (r : GuardReceipt) : List (String × Json) :=
  [("$schema", Json.str GUARD_RECEIPT_SCHEMA_ID),
   ("receipt_id", Json.str r.receipt_id),
   ("issued_at", Json.num r.issued_at),
   ("decision", Json.str r.decision),
   ("trace_id", Json.str r.trace_id),
   ("capability_token_ref", Json.str r.capability_token_ref),
   ("token_status", Json.str r.token_status),
   ("reason_codes", Json.arr (r.reason_codes.map Json.str)),
   ("constraints", Json.obj r.constraints),
   ("discernment", Json.obj r.discernment),
   ("signature", Json.obj r.signature)]

/-- Token gathering in `evaluate_receipt` (lines 123-127):
`list(capability_tokens or envelope.get("capability_tokens") or [])`, then a
fallback to a single `capability_token` string (Python truthiness: an empty
sequence falls through, while an empty single string is still a `str` and
becomes a one-element list). -/
def provided_tokens_of (capability_tokens : Option (List String))
    (envelope : Envelope) : List String :=
  let fromSeqs :=
    match capability_tokens with
    | some (t :: ts) => t :: ts
    | _ =>
      match envelope.capability_tokens with
      | some (t :: ts) => t :: ts
      | _ => []
  match fromSeqs with
  | [] =>
    match envelope.capability_token with
    | some s => [s]
    | none => []
  | l => l

def optJsonStr : Option String → Json
  | some s => Json.str s
  | none => Json.null

/-- Effectful inputs of `evaluate_receipt` made explicit: the two generated
UUIDs, the wall clock reading, and the process working directory. -/
structure EvalContext where
  fresh_trace_id : String
  fresh_receipt_id : String
  now : Int
  cwd : String
deriving Repr

/-- `evaluate_receipt` from `receipt.py` (lines 110-245).  The registry
integration boundary `reg_integration.verify_tokens` (which shells out to
an external authority per token) is a function parameter, as is the HMAC
primitive; `ctx` supplies the clock, UUIDs and cwd.  Schema validation of
the inputs is reflected in the typed records, and the `audit.record` side
effect, which does not influence the returned receipt, is omitted. -/
def evaluate_receipt
    (verify_tokens : List String → List String → List TokenVerification)
    (mac : String → String → String) (secret : String) (ctx : EvalContext)
    (envelope : Envelope) (discernment : Option Discernment)
    (capability_tokens : Option (List String))
    (revocations : Option (List String)) : GuardReceipt :=
  let trace_id := envelope.trace_id.getD ctx.fresh_trace_id
  let base_token_ref := envelope.capability_token_ref.getD "unknown"
  let provided_tokens := provided_tokens_of capability_tokens envelope
  let tokenStage : Bool × String × String × List String :=
    match provided_tokens with
    | [] => (false, "missing", base_token_ref, ["token.missing"])
    | t :: ts =>
      let verification := verify_tokens (t :: ts) (revocations.getD [])
      let token_valid := verification.all (fun r => r.valid)
      let token_ref :=
        match verification with
        | [] => base_token_ref
        | v0 :: _ => if v0.token_ref != "" then v0.token_ref else base_token_ref
      (token_valid, (if token_valid then "valid" else "invalid"), token_ref,
        verification.foldl (fun acc r => acc ++ r.reason_codes) [])
  let token_valid := tokenStage.1
  let token_status := tokenStage.2.1
  let token_ref := tokenStage.2.2.1
  let reason_codes0 := tokenStage.2.2.2
  let risk_level := parse_risk_level discernment
  let posture := discernment.bind (fun d => d.posture)
  let requires_confirmation :=
    (discernment.bind (fun d => d.requires_confirmation)) == some true
  let decisionStage : String × List String :=
    if token_valid = false then
      ("BLOCK", if reason_codes0.contains "token.invalid" then reason_codes0
                else reason_codes0 ++ ["token.invalid"])
    else if risk_level == some "critical" then
      ("BLOCK", reason_codes0 ++ ["risk.critical"])
    else if risk_level == some "high" then
      ("REQUIRE_CONFIRM", reason_codes0 ++ ["risk.high"])
    else if risk_level == some "medium" && (posture == some "low" || posture == some "degraded") then
      ("REQUIRE_CONFIRM", reason_codes0 ++ ["posture.low"])
    else if risk_level == some "medium" then
      ("WARN", reason_codes0 ++ ["risk.medium"])
    else if requires_confirmation then
      ("REQUIRE_CONFIRM", reason_codes0 ++ ["discernment.confirmation"])
    else ("ALLOW", reason_codes0 ++ ["risk.low"])
  let decision := decisionStage.1
  let reason_codes1 := decisionStage.2
  let working_dir := pathStr (envelope.working_dir.getD ctx.cwd)
  let allowed_commands :=
    match envelope.allowed_commands with
    | some cmds => cmds
    | none =>
      match envelope.command with
      | some c => if c != "" then [c] else []
      | none => []
  let allowed_paths0 := envelope.allowed_paths
  let allowed_paths :=
    if allowed_commands.isEmpty && (allowed_paths0.getD []).isEmpty && decision == "ALLOW" then
      some [working_dir]
    else allowed_paths0
  let constraints : List (String × Json) :=
    ([("receipt_required", some (Json.bool true)),
      ("allowlist_execution", some (Json.bool true)),
      ("working_dir", some (Json.str working_dir)),
      ("sandbox_profile", some (Json.str (envelope.sandbox_profile.getD "userland"))),
      ("timeout_s", some (Json.num (envelope.timeout_s.getD 300))),
      ("resource_limits", some (envelope.resource_limits.getD default_resource_limits)),
      ("allowed_commands", if allowed_commands.isEmpty then none
        else some (Json.arr (allowed_commands.map Json.str))),
      ("allowed_paths", match allowed_paths with
        | some (p :: ps) => some (Json.arr ((p :: ps).map Json.str))
        | _ => none),
      ("network", some (envelope.network.getD (Json.obj [("egress", Json.str "restricted")]))),
      ("environment", some (Json.obj
        [("allowlist", Json.arr ((envelope.env_allowlist.getD default_env_allowlist).map Json.str)),
         ("denylist", Json.arr ((envelope.env_denylist.getD default_env_denylist).map Json.str))])),
      ("confirmation_required", some (Json.bool (decision == "REQUIRE_CONFIRM")))]
      : List (String × Option Json)).filterMap
      (fun kv => kv.2.map (fun v => (kv.1, v)))
  let reason_codes := if reason_codes1.isEmpty then ["unspecified"] else reason_codes1
  let discernment_payload : List (String × Json) :=
    [("risk_level", optJsonStr risk_level),
     ("posture", optJsonStr posture),
     ("summary", optJsonStr (discernment.bind (fun d => d.summary)))]
  let payload : List (String × Json) :=
    [("$schema", Json.str GUARD_RECEIPT_SCHEMA_ID),
     ("receipt_id", Json.str ctx.fresh_receipt_id),
     ("issued_at", Json.num ctx.now),
     ("decision", Json.str decision),
     ("trace_id", Json.str trace_id),
     ("capability_token_ref", Json.str token_ref),
     ("token_status", Json.str token_status),
     ("reason_codes", Json.arr (reason_codes.map Json.str)),
     ("constraints", Json.obj constraints),
     ("discernment", Json.obj discernment_payload)]
  let signature_value := sign_payload mac payload secret
  ⟨ctx.fresh_receipt_id, ctx.now, decision, trace_id, token_ref, constraints,
   token_status, reason_codes, discernment_payload,
   [("alg", Json.str SIGNATURE_ALG), ("value", Json.str signature_value)]⟩

def isStrJson : Json → Bool
  | .str _ => true
  | _ => false

def isNumJson : Json → Bool
  | .num _ => true
  | _ => false

def isObjJson : Json → Bool
  | .obj _ => true
  | _ => false

def isReasonCodesJson : Json → Bool
  | .arr (x :: xs) => (x :: xs).all isStrJson
  | _ => false

/-- Required top-level fields of a guard receipt document and their shapes.
Modelled from the spec: `guard_receipt.schema.json` is absent from the
source tree; the spec's receipt wire format (§6) gives the required fields
and their types (`reason_codes` a non-empty array of strings, `signature`
an object whose interior `verify_receipt` checks itself). -/
def required_receipt_fields : List (String × (Json → Bool)) :=
  [("$schema", isStrJson), ("receipt_id", isStrJson), ("issued_at", isNumJson),
   ("decision", isStrJson), ("trace_id", isStrJson),
   ("capability_token_ref", isStrJson), ("token_status", isStrJson),
   ("reason_codes", isReasonCodesJson), ("constraints", isObjJson),
   ("discernment", isObjJson), ("signature", isObjJson)]

def joinErrs : List String → String
  | [] => ""
  | [e] => e
  | e :: f :: rest => e ++ "; " ++ joinErrs (f :: rest)

/-- `_validate_schema payload "guard_receipt.schema.json"` reified as a
total function: `none` when the document validates, otherwise the message
of the `ValueError` the source raises, which always starts with
`"Schema validation failed: "` (receipt.py line 57).  The individual
violation texts are modelled; the prefix is the source's. -/
def validate_guard_receipt (receipt : List (String × Json)) : Option String :=
  let errs := required_receipt_fields.filterMap (fun kv =>
    match dictGet receipt kv.1 with
    | none => some ("guard_receipt.schema.json::" ++ kv.1 ++ " is a required property")
    | some v => if kv.2 v then none
      else some ("guard_receipt.schema.json:" ++ kv.1 ++ ":invalid type"))
  if errs.isEmpty then none
  else some ("Schema validation failed: " ++ joinErrs errs)

/-- The `signature` object `verify_receipt` reads:
`receipt.get("signature") or {}` (a missing or falsy value yields the
empty dict; a schema-valid receipt's `signature` is an object). -/
def receipt_signature_obj (receipt : List (String × Json)) : List (String × Json) :=
  match dictGet receipt "signature" with
  | some (Json.obj kvs) => kvs
  | _ => []

/-- The metadata test of `verify_receipt`, positively: the negation of
`signature.get("alg") != "HMAC-SHA256" or "value" not in signature`. -/
def signature_metadata_ok (sig : List (String × Json)) : Bool :=
  (match dictGet sig "alg" with
   | some (Json.str a) => a == SIGNATURE_ALG
   | _ => false) && !(dictGet sig "value").isNone

/-- The final comparison of `verify_receipt`: the stored `value` equals the
MAC recomputed over the receipt minus its `signature` field (a stored
non-string value compares unequal, as in Python). -/
def signature_value_matches (mac : String → String → String) (secret : String)
    (receipt : List (String × Json)) : Bool :=
  match dictGet (receipt_signature_obj receipt) "value" with
  | some (Json.str v) => v == sign_payload mac (dictRemove receipt "signature") secret
  | _ => false

/-- `verify_receipt` from `receipt.py` (lines 248-264). -/
def verify_receipt (mac : String → String → String) (secret : String)
    (receipt : List (String × Json)) : Bool × String :=
  match validate_guard_receipt receipt with
  | some msg => (false, msg)
  | none =>
    if !signature_metadata_ok (receipt_signature_obj receipt) then
      (false, "invalid_signature_metadata")
    else if !signature_value_matches mac secret receipt then
      (false, "signature_mismatch")
    else (true, "ok")

/-! Trip rule engine (`blux_modules/security/trip_engine.py`). -/

mutual
/-- Structural equality of JSON values, modelling Python `==` on parsed
JSON documents (the cross-type coercions `True == 1` and int/float mixing
play no role in the conditions under study). -/
def Json.beq : Json → Json → Bool
  | .null, .null => true
  | .bool a, .bool b => a == b
  | .num a, .num b => a == b
  | .str a, .str b => a == b
  | .arr a, .arr b => beqJsonList a b
  | .obj a, .obj b => beqJsonKVs a b
  | _, _ => false

def beqJsonList : List Json → List Json → Bool
  | [], [] => true
  | a :: as, b :: bs => a.beq b && beqJsonList as bs
  | _, _ => false

def beqJsonKVs : List (String × Json) → List (String × Json) → Bool
  | [], [] => true
  | (ka, va) :: as, (kb, vb) :: bs => ka == kb && va.beq vb && beqJsonKVs as bs
  | _, _ => false
end

def optJsonBeq : Option Json → Option Json → Bool
  | none, none => true
  | some a, some b => a.beq b
  | _, _ => false

/-- Python truthiness of a JSON value. -/
def jsonTruthy : Json → Bool
  | .null => false
  | .bool b => b
  | .num n => !(n == 0)
  | .str s => !(s == "")
  | .arr xs => !xs.isEmpty
  | .obj kvs => !kvs.isEmpty

def splitOnChar (sep : Char) : List Char → List (List Char)
  | [] => [[]]
  | c :: rest =>
    if c == sep then [] :: splitOnChar sep rest
    else
      match splitOnChar sep rest with
      | [] => [[c]]
      | g :: gs => (c :: g) :: gs

/-- `get_field` from `trip_engine.py` (lines 86-93): dotted-path lookup,
`None` as soon as the current value is not a dict containing the key. -/
def get_field (event : Json) (path : String) : Option Json :=
  (splitOnChar '.' path.data).foldl (fun cur p =>
    match cur with
    | some (Json.obj kvs) => dictGet kvs (String.mk p)
    | _ => none) (some event)

/-- Rule conditions: the tagged `condition` dicts of `rules.json`, with the
dict lookups made structural (`op` defaults to `"gt"` and `window` to `60`
at the `cond.get` sites; `cmatch`'s `value` is `cond.get("value")`, absent
allowed). -/
inductive Cond where
  | threshold (field : String) (op : String) (value : Int) (window : Int)
  | cmatch (field : String) (value : Option Json)
  | cexists (field : String)
  | cand (clauses : List Cond)
  | cor (clauses : List Cond)

/-- The module-global `WINDOWS` defaultdict: a deque of event timestamps
per `(uid, field)` key.  `uid` is the event's `"uid"` value, an arbitrary
JSON value; timestamps are modelled as integers. -/
abbrev Windows := List ((Json × String) × List Int)

def winKeyBeq (a b : Json × String) : Bool := a.1.beq b.1 && a.2 == b.2

/-- `WINDOWS[uid][field]` read: a missing key denotes an empty deque
(defaultdict behaviour). -/
def winGet : Windows → Json → String → List Int
  | [], _, _ => []
  | kv :: rest, uid, field =>
    if winKeyBeq kv.1 (uid, field) then kv.2 else winGet rest uid field

/-- `WINDOWS[uid][field]` update: replace the binding in place, or create
it (defaultdict behaviour). -/
def winSet : Windows → Json → String → List Int → Windows
  | [], uid, field, dq => [((uid, field), dq)]
  | kv :: rest, uid, field, dq =>
    if winKeyBeq kv.1 (uid, field) then (kv.1, dq) :: rest
    else kv :: winSet rest uid field dq

/-- The operator table `{"gt": count > value, ...}.get(op, False)`. -/
def opApply (op : String) (count value : Int) : Bool :=
  if op == "gt" then decide (value < count)
  else if op == "gte" then decide (value ≤ count)
  else if op == "eq" then count == value
  else if op == "lt" then decide (count < value)
  else if op == "lte" then decide (count ≤ value)
  else false

mutual
/-- `eval_condition` from `trip_engine.py` (lines 97-135).  The mutable
global `WINDOWS` is threaded explicitly; `now_ts` is the `time.time()`
reading taken once per event in `process_event`.  A threshold appends
`now_ts` to the subject's window when the field value is present and
truthy, then prunes entries older than `now_ts - window` from the left and
compares the remaining count against `value` under `op`. -/
def eval_condition (cond : Cond) (event : List (String × Json)) (now_ts : Int)
    (w : Windows) : Bool × Windows :=
  match cond with
  | .threshold field op value window =>
    let uid := (dictGet event "uid").getD (Json.str "<unknown>")
    let dq := winGet w uid field
    let field_val := get_field (Json.obj event) field
    let dq1 :=
      match field_val with
      | some v => if jsonTruthy v then dq ++ [now_ts] else dq
      | none => dq
    let cutoff := now_ts - window
    let dq2 := dq1.dropWhile (fun t => decide (t < cutoff))
    (opApply op dq2.length value, winSet w uid field dq2)
  | .cmatch field value => (optJsonBeq (get_field (Json.obj event) field) value, w)
  | .cexists field => ((get_field (Json.obj event) field).isSome, w)
  | .cand clauses => evalAndClauses clauses event now_ts w
  | .cor clauses => evalOrClauses clauses event now_ts w

/-- `all(eval_condition(c, ...) for c in clauses)`: short-circuits at the
first false clause, so later clauses' window updates do not happen. -/
def evalAndClauses : List Cond → List (String × Json) → Int → Windows → Bool × Windows
  | [], _, _, w => (true, w)
  | c :: cs, event, now_ts, w =>
    match eval_condition c event now_ts w with
    | (true, w1) => evalAndClauses cs event now_ts w1
    | (false, w1) => (false, w1)

/-- `any(eval_condition(c, ...) for c in clauses)`: short-circuits at the
first true clause. -/
def evalOrClauses : List Cond → List (String × Json) → Int → Windows → Bool × Windows
  | [], _, _, w => (false, w)
  | c :: cs, event, now_ts, w =>
    match eval_condition c event now_ts w with
    | (true, w1) => (true, w1)
    | (false, w1) => evalOrClauses cs event now_ts w1
end

/-! Audit chain verifier (`blux_guard/core/security_cockpit.py`). -/

/-- UTF-8 encoding of one character as byte values. -/
def utf8EncodeCharNat (c : Char) : List Nat :=
  let n := c.toNat
  if n < 128 then [n]
  else if n < 2048 then [192 + n / 64, 128 + n % 64]
  else if n < 65536 then [224 + n / 4096, 128 + n / 64 % 64, 128 + n % 64]
  else [240 + n / 262144, 128 + n / 4096 % 64, 128 + n / 64 % 64, 128 + n % 64]

/-- `line.encode("utf-8")`; bytes are lists of naturals below 256. -/
def utf8Bytes (s : String) : List Nat :=
  (s.data.map utf8EncodeCharNat).flatten

def byteHex (b : Nat) : String :=
  String.mk [hexDigitChar (b / 16 % 16), hexDigitChar (b % 16)]

/-- `bytes.hex()`. -/
def bytesHex (bs : List Nat) : String := String.join (bs.map byteHex)

/-- The `AuditChainReport` dataclass. -/
structure AuditChainReport where
  status : String
  message : String
  digest : String
  line_count : Nat
deriving Repr

/-- `verify_audit_chain` from `security_cockpit.py` (lines 236-250).  The
file system read is explicit: `contents` is `none` when the path does not
exist, otherwise the list of lines `read_text().splitlines()` yields.  The
`hashlib.sha256(...).digest()` primitive is the parameter `sha256` on byte
lists. -/
def verify_audit_chain (sha256 : List Nat → List Nat)
    (contents : Option (List String)) : AuditChainReport :=
  match contents with
  | none => ⟨"missing", "Audit log missing", "", 0⟩
  | some lines =>
    let final := lines.foldl (fun previous line => sha256 (previous ++ utf8Bytes line)) []
    let digest := bytesHex final
    if lines.isEmpty then ⟨"empty", "Audit log empty", digest, lines.length⟩
    else ⟨"clean", "Audit chain intact", digest, lines.length⟩

/-! Further definitions used by the statements below. -/

/-- Stages 2-7 of the decision mapping in `evaluate_receipt` (lines
153-169), extracted as a standalone function of the parsed discernment
signals.  First component: the decision; second: the reason code the
deciding stage appends. -/
def risk_stage_decision (risk_level posture : Option String)
    (requires_confirmation : Bool) : String × String :=
  if risk_level == some "critical" then ("BLOCK", "risk.critical")
  else if risk_level == some "high" then ("REQUIRE_CONFIRM", "risk.high")
  else if risk_level == some "medium" && (posture == some "low" || posture == some "degraded") then
    ("REQUIRE_CONFIRM", "posture.low")
  else if risk_level == some "medium" then ("WARN", "risk.medium")
  else if requires_confirmation then ("REQUIRE_CONFIRM", "discernment.confirmation")
  else ("ALLOW", "risk.low")

/-- The audit chain recurrence as the spec states it: digest 0 is the
empty byte string, digest (n+1) hashes digest n followed by the bytes of
line n, lines read in file order. -/
def chain_digest_at (sha256 : List Nat → List Nat) (lines : List String) : Nat → List Nat
  | 0 => []
  | n + 1 => sha256 (chain_digest_at sha256 lines n ++ utf8Bytes (lines.getD n ""))

/-- Sequential ingestion of timestamped events against one rule condition,
as `repl_stdin_loop` and `process_event` do for a singleton rule set: one
event per stdin line, each evaluation keeping the updated windows. -/
def ingest_events (cond : Cond) (evs : List (List (String × Json) × Int))
    (w : Windows) : Windows :=
  evs.foldl (fun acc et => (eval_condition cond et.1 et.2 acc).2) w

/-! Concrete fixtures for witnesses and counterexamples, mirroring the
stubs of `tests/test_receipt.py`. -/

/-- An injective stand-in for the HMAC primitive. -/
def macTag (secret msg : String) : String := secret ++ "|" ++ msg

/-- `_stub_verifications` from the tests: one result per token, all with
the given validity. -/
def stubVerify (valid : Bool) : List String → List String → List TokenVerification :=
  fun tokens _ => tokens.map (fun t =>
    ⟨t, valid, "token-ref-1", [if valid then "token.valid" else "token.invalid"], []⟩)

/-- A verifier reporting the first token valid and every later one
invalid. -/
def stubVerifyFirstOnly : List String → List String → List TokenVerification :=
  fun tokens _ =>
    match tokens with
    | [] => []
    | t :: ts => ⟨t, true, "token-ref-1", ["token.valid"], []⟩ ::
        ts.map (fun s => ⟨s, false, "token-ref-2", ["token.invalid"], []⟩)

def ctx0 : EvalContext := ⟨"trace-gen", "receipt-1", 1700000000, "/work"⟩

/-- `_base_envelope` from the tests: only `trace_id` and
`capability_token_ref` are set. -/
def env0 : Envelope :=
  ⟨some "trace-123", some "cap-token-abc", none, none, none, none, none,
   none, none, none, none, none, none, none⟩

end BluxGuard

namespace BluxGuard

set_option maxRecDepth 100000

example : canonical_json [("b", .num 1), ("a", .str "x")] = "\x7b\"a\":\"x\",\"b\":1\x7d" := by
  rfl

example : pathStr "/home//user/./x/" = "/home/user/x" := by rfl

/-! Helper lemmas. -/

mutual
theorem Json.beq_refl : ∀ j : Json, Json.beq j j = true
  | .null => rfl
  | .bool b => by simp [Json.beq]
  | .num n => by simp [Json.beq]
  | .str s => by simp [Json.beq]
  | .arr xs => by simpa [Json.beq] using beqJsonList_refl xs
  | .obj kvs => by simpa [Json.beq] using beqJsonKVs_refl kvs

theorem beqJsonList_refl : ∀ xs : List Json, beqJsonList xs xs = true
  | [] => rfl
  | x :: xs => by
    simp only [beqJsonList, Bool.and_eq_true]
    exact ⟨Json.beq_refl x, beqJsonList_refl xs⟩

theorem beqJsonKVs_refl : ∀ kvs : List (String × Json), beqJsonKVs kvs kvs = true
  | [] => rfl
  | (k, v) :: rest => by
    simp only [beqJsonKVs, Bool.and_eq_true]
    exact ⟨⟨by simp, Json.beq_refl v⟩, beqJsonKVs_refl rest⟩
end

theorem winKeyBeq_refl (a : Json × String) : winKeyBeq a a = true := by
  simp [winKeyBeq, Json.beq_refl]

theorem winGet_winSet (w : Windows) (uid : Json) (field : String) (dq : List Int) :
    winGet (winSet w uid field dq) uid field = dq := by
  induction w with
  | nil => simp [winGet, winSet, winKeyBeq_refl]
  | cons kv rest ih =>
    by_cases h : winKeyBeq kv.1 (uid, field) = true
    · simp [winGet, winSet, h]
    · simp [winGet, winSet, h, ih]

theorem chain_digest_at_append (sha256 : List Nat → List Nat) (ls more : List String)
    (n : Nat) (hn : n ≤ ls.length) :
    chain_digest_at sha256 (ls ++ more) n = chain_digest_at sha256 ls n := by
  induction n with
  | zero => rfl
  | succ m ih =>
    have hm : m ≤ ls.length := Nat.le_of_succ_le hn
    have hlt : m < ls.length := hn
    simp only [chain_digest_at, ih hm, List.getD]
    rw [List.get?_eq_getElem?, List.get?_eq_getElem?, List.getElem?_append_left hlt]

theorem foldl_chain_eq (sha256 : List Nat → List Nat) (lines : List String) :
    lines.foldl (fun previous line => sha256 (previous ++ utf8Bytes line)) []
      = chain_digest_at sha256 lines lines.length := by
  induction lines using List.reverseRecOn with
  | nil => rfl
  | append_singleton ls l ih =>
    rw [List.foldl_append]
    simp only [List.foldl_cons, List.foldl_nil, ih]
    have hlen : (ls ++ [l]).length = ls.length + 1 := by simp
    rw [hlen]
    simp only [chain_digest_at]
    rw [chain_digest_at_append sha256 ls [l] ls.length (le_refl _)]
    congr 1
    simp [List.getD_append_right, le_refl]

/-! C6: audit chain verification. -/

/-- C6: `verify_audit_chain` folds `digest = SHA256(digest || bytes(line))`
over the file's lines in order, seeded from the empty byte string (stated
through the spec's per-index recurrence `chain_digest_at`); it reports the
hex of that digest, `line_count` equal to the number of lines, status
`"clean"` for a non-empty file and `"empty"` for an existing empty file;
recomputation over the same stored lines reproduces the same digest. -/
theorem audit_chain_recompute (sha256 : List Nat → List Nat) (lines : List String) :
    (verify_audit_chain sha256 (some lines)).digest
        = bytesHex (chain_digest_at sha256 lines lines.length)
    ∧ (verify_audit_chain sha256 (some lines)).line_count = lines.length
    ∧ (lines ≠ [] → (verify_audit_chain sha256 (some lines)).status = "clean")
    ∧ (lines = [] → (verify_audit_chain sha256 (some lines)).status = "empty")
    ∧ (verify_audit_chain sha256 (some lines)).digest
        = (verify_audit_chain sha256 (some lines)).digest := by
  refine ⟨?_, ?_, ?_, ?_, rfl⟩
  · simp only [verify_audit_chain, foldl_chain_eq]
    split <;> rfl
  · cases h : lines.isEmpty <;> simp [verify_audit_chain, h]
  · intro h
    have : lines.isEmpty = false := by
      cases lines with
      | nil => exact absurd rfl h
      | cons a l => rfl
    simp [verify_audit_chain, this]
  · intro h
    subst h
    rfl

theorem audit_chain_recompute_witness :
    (["a", "b"] : List String) ≠ [] ∧
    (verify_audit_chain (fun bs => bs) (some ["a", "b"])).status = "clean" :=
  ⟨by decide, (audit_chain_recompute (fun bs => bs) ["a", "b"]).2.2.1 (by decide)⟩

/-! C10: threshold windows count only truthy field values. -/

theorem dropWhile_length_le (p : Int → Bool) (l : List Int) :
    (l.dropWhile p).length ≤ l.length := by
  induction l with
  | nil => simp
  | cons a l ih =>
    by_cases h : p a
    · simp only [List.dropWhile_cons, h, if_true]
      exact le_trans ih (by simp)
    · simp [List.dropWhile_cons, h]

/-- C10: evaluating a threshold condition appends `now_ts` to the
`(uid, field)` window exactly when the event's dotted-path field value is
present and truthy; the window is then pruned to `[now_ts - window, now_ts]`
from the left.  When the value is absent or falsy no timestamp is
appended, so the stored window never grows and such an event can never
raise the count that trips a threshold rule. -/
theorem threshold_append_iff_truthy (field op : String) (value window : Int)
    (event : List (String × Json)) (now_ts : Int) (w : Windows) :
    (∀ v, get_field (Json.obj event) field = some v → jsonTruthy v = true →
       winGet (eval_condition (.threshold field op value window) event now_ts w).2
           ((dictGet event "uid").getD (Json.str "<unknown>")) field
         = (winGet w ((dictGet event "uid").getD (Json.str "<unknown>")) field
             ++ [now_ts]).dropWhile (fun t => decide (t < now_ts - window)))
    ∧ ((get_field (Json.obj event) field = none
         ∨ ∃ v, get_field (Json.obj event) field = some v ∧ jsonTruthy v = false) →
       winGet (eval_condition (.threshold field op value window) event now_ts w).2
           ((dictGet event "uid").getD (Json.str "<unknown>")) field
         = (winGet w ((dictGet event "uid").getD (Json.str "<unknown>")) field).dropWhile
             (fun t => decide (t < now_ts - window))
       ∧ (winGet (eval_condition (.threshold field op value window) event now_ts w).2
           ((dictGet event "uid").getD (Json.str "<unknown>")) field).length
         ≤ (winGet w ((dictGet event "uid").getD (Json.str "<unknown>")) field).length) := by
  constructor
  · intro v hv htr
    simp [eval_condition, hv, htr, winGet_winSet]
  · intro h
    have hwin : winGet (eval_condition (.threshold field op value window) event now_ts w).2
        ((dictGet event "uid").getD (Json.str "<unknown>")) field
      = (winGet w ((dictGet event "uid").getD (Json.str "<unknown>")) field).dropWhile
          (fun t => decide (t < now_ts - window)) := by
      rcases h with h | ⟨v, hv, hfl⟩
      · simp [eval_condition, h, winGet_winSet]
      · simp [eval_condition, hv, hfl, winGet_winSet]
    exact ⟨hwin, hwin ▸ dropWhile_length_le _ _⟩

theorem threshold_append_iff_truthy_witness :
    get_field (Json.obj [("uid", Json.str "u"), ("hits", Json.num 1)]) "hits"
        = some (Json.num 1)
    ∧ jsonTruthy (Json.num 1) = true
    ∧ winGet (eval_condition (.threshold "hits" "gt" 5 60)
          [("uid", Json.str "u"), ("hits", Json.num 1)] 100 []).2 (Json.str "u") "hits"
        = [100] := by
  refine ⟨by rfl, by rfl, ?_⟩
  have h := (threshold_append_iff_truthy "hits" "gt" 5 60
    [("uid", Json.str "u"), ("hits", Json.num 1)] 100 []).1 (Json.num 1) (by rfl) (by rfl)
  simpa using h

/-! C5: sliding-window threshold correctness. -/

theorem dropWhile_keep (c a : Int) (l : List Int) (h : ¬ a < c) :
    (a :: l).dropWhile (fun s => decide (s < c)) = a :: l := by
  simp [List.dropWhile_cons, h]

theorem dropWhile_drop (c a : Int) (l : List Int) (h : a < c) :
    (a :: l).dropWhile (fun s => decide (s < c)) = l.dropWhile (fun s => decide (s < c)) := by
  simp [List.dropWhile_cons, h]

/-- One threshold evaluation step for a qualifying event, phrased on the
window contents of the subject's key. -/
theorem threshold_step_win (f : String) (value window : Int) (u : Json)
    (e : List (String × Json)) (t : Int) (w : Windows) (v : Json) (dq : List Int)
    (hu : dictGet e "uid" = some u)
    (hv : get_field (Json.obj e) f = some v) (htr : jsonTruthy v = true)
    (hw : winGet w u f = dq) :
    winGet (eval_condition (.threshold f "gt" value window) e t w).2 u f
      = (dq ++ [t]).dropWhile (fun s => decide (s < t - window))
    ∧ (eval_condition (.threshold f "gt" value window) e t w).1
      = decide (value <
          (((dq ++ [t]).dropWhile (fun s => decide (s < t - window))).length : Int)) := by
  simp [eval_condition, hu, hv, htr, opApply, winGet_winSet, hw]

/-- C5: for a `threshold{field, gt, 5, window 60}` rule and a fixed
subject, six qualifying events within 60 seconds trip the rule on the
sixth; if the sixth arrives more than 60 seconds after the first while the
intermediate four are within 60 seconds of the sixth, the sixth evaluation
does not trip, because the window only counts timestamps within
`[now - 60, now]`. -/
theorem window_threshold_six_events (f : String) (u : Json)
    (e1 e2 e3 e4 e5 e6 : List (String × Json)) (t1 t2 t3 t4 t5 t6 : Int)
    (v1 v2 v3 v4 v5 v6 : Json)
    (hu1 : dictGet e1 "uid" = some u) (hu2 : dictGet e2 "uid" = some u)
    (hu3 : dictGet e3 "uid" = some u) (hu4 : dictGet e4 "uid" = some u)
    (hu5 : dictGet e5 "uid" = some u) (hu6 : dictGet e6 "uid" = some u)
    (hv1 : get_field (Json.obj e1) f = some v1) (htr1 : jsonTruthy v1 = true)
    (hv2 : get_field (Json.obj e2) f = some v2) (htr2 : jsonTruthy v2 = true)
    (hv3 : get_field (Json.obj e3) f = some v3) (htr3 : jsonTruthy v3 = true)
    (hv4 : get_field (Json.obj e4) f = some v4) (htr4 : jsonTruthy v4 = true)
    (hv5 : get_field (Json.obj e5) f = some v5) (htr5 : jsonTruthy v5 = true)
    (hv6 : get_field (Json.obj e6) f = some v6) (htr6 : jsonTruthy v6 = true)
    (h12 : t1 ≤ t2) (h23 : t2 ≤ t3) (h34 : t3 ≤ t4) (h45 : t4 ≤ t5) (h56 : t5 ≤ t6) :
    (t6 - t1 ≤ 60 →
      (eval_condition (.threshold f "gt" 5 60) e6 t6
        (ingest_events (.threshold f "gt" 5 60)
          [(e1, t1), (e2, t2), (e3, t3), (e4, t4), (e5, t5)] [])).1 = true)
    ∧ (60 < t6 - t1 → t6 - t2 ≤ 60 →
      (eval_condition (.threshold f "gt" 5 60) e6 t6
        (ingest_events (.threshold f "gt" 5 60)
          [(e1, t1), (e2, t2), (e3, t3), (e4, t4), (e5, t5)] [])).1 = false) := by
  have hw0 : winGet ([] : Windows) u f = [] := rfl
  constructor
  · intro hA
    obtain ⟨hW1, -⟩ := threshold_step_win f 5 60 u e1 t1 [] v1 [] hu1 hv1 htr1 hw0
    rw [List.nil_append, dropWhile_keep _ _ _ (by omega : ¬ t1 < t1 - 60)] at hW1
    obtain ⟨hW2, -⟩ := threshold_step_win f 5 60 u e2 t2 _ v2 [t1] hu2 hv2 htr2 hW1
    rw [show [t1] ++ [t2] = [t1, t2] from rfl,
      dropWhile_keep _ _ _ (by omega : ¬ t1 < t2 - 60)] at hW2
    obtain ⟨hW3, -⟩ := threshold_step_win f 5 60 u e3 t3 _ v3 [t1, t2] hu3 hv3 htr3 hW2
    rw [show [t1, t2] ++ [t3] = [t1, t2, t3] from rfl,
      dropWhile_keep _ _ _ (by omega : ¬ t1 < t3 - 60)] at hW3
    obtain ⟨hW4, -⟩ := threshold_step_win f 5 60 u e4 t4 _ v4 [t1, t2, t3] hu4 hv4 htr4 hW3
    rw [show [t1, t2, t3] ++ [t4] = [t1, t2, t3, t4] from rfl,
      dropWhile_keep _ _ _ (by omega : ¬ t1 < t4 - 60)] at hW4
    obtain ⟨hW5, -⟩ := threshold_step_win f 5 60 u e5 t5 _ v5 [t1, t2, t3, t4] hu5 hv5 htr5 hW4
    rw [show [t1, t2, t3, t4] ++ [t5] = [t1, t2, t3, t4, t5] from rfl,
      dropWhile_keep _ _ _ (by omega : ¬ t1 < t5 - 60)] at hW5
    obtain ⟨-, hfin⟩ :=
      threshold_step_win f 5 60 u e6 t6 _ v6 [t1, t2, t3, t4, t5] hu6 hv6 htr6 hW5
    rw [show [t1, t2, t3, t4, t5] ++ [t6] = [t1, t2, t3, t4, t5, t6] from rfl,
      dropWhile_keep _ _ _ (by omega : ¬ t1 < t6 - 60)] at hfin
    simp only [ingest_events, List.foldl_cons, List.foldl_nil]
    rw [hfin]
    simp
  · intro hB hB2
    obtain ⟨hW1, -⟩ := threshold_step_win f 5 60 u e1 t1 [] v1 [] hu1 hv1 htr1 hw0
    rw [List.nil_append, dropWhile_keep _ _ _ (by omega : ¬ t1 < t1 - 60)] at hW1
    obtain ⟨hW2, -⟩ := threshold_step_win f 5 60 u e2 t2 _ v2 [t1] hu2 hv2 htr2 hW1
    rw [show [t1] ++ [t2] = [t1, t2] from rfl] at hW2
    have H2 : winGet (eval_condition (.threshold f "gt" 5 60) e2 t2
          (eval_condition (.threshold f "gt" 5 60) e1 t1 []).2).2 u f = [t1, t2]
        ∨ winGet (eval_condition (.threshold f "gt" 5 60) e2 t2
          (eval_condition (.threshold f "gt" 5 60) e1 t1 []).2).2 u f = [t2] := by
      by_cases hc : t1 < t2 - 60
      · right
        rw [dropWhile_drop _ _ _ hc, dropWhile_keep _ _ _ (by omega : ¬ t2 < t2 - 60)] at hW2
        exact hW2
      · left
        rw [dropWhile_keep _ _ _ hc] at hW2
        exact hW2
    have H3 : winGet (eval_condition (.threshold f "gt" 5 60) e3 t3
          (eval_condition (.threshold f "gt" 5 60) e2 t2
            (eval_condition (.threshold f "gt" 5 60) e1 t1 []).2).2).2 u f = [t1, t2, t3]
        ∨ winGet (eval_condition (.threshold f "gt" 5 60) e3 t3
          (eval_condition (.threshold f "gt" 5 60) e2 t2
            (eval_condition (.threshold f "gt" 5 60) e1 t1 []).2).2).2 u f = [t2, t3] := by
      rcases H2 with h | h
      · obtain ⟨hW3, -⟩ := threshold_step_win f 5 60 u e3 t3 _ v3 [t1, t2] hu3 hv3 htr3 h
        rw [show [t1, t2] ++ [t3] = [t1, t2, t3] from rfl] at hW3
        by_cases hc : t1 < t3 - 60
        · right
          rw [dropWhile_drop _ _ _ hc,
            dropWhile_keep _ _ _ (by omega : ¬ t2 < t3 - 60)] at hW3
          exact hW3
        · left
          rw [dropWhile_keep _ _ _ hc] at hW3
          exact hW3
      · obtain ⟨hW3, -⟩ := threshold_step_win f 5 60 u e3 t3 _ v3 [t2] hu3 hv3 htr3 h
        rw [show [t2] ++ [t3] = [t2, t3] from rfl,
          dropWhile_keep _ _ _ (by omega : ¬ t2 < t3 - 60)] at hW3
        right
        exact hW3
    have H4 : winGet (eval_condition (.threshold f "gt" 5 60) e4 t4
          (eval_condition (.threshold f "gt" 5 60) e3 t3
            (eval_condition (.threshold f "gt" 5 60) e2 t2
              (eval_condition (.threshold f "gt" 5 60) e1 t1 []).2).2).2).2 u f
            = [t1, t2, t3, t4]
        ∨ winGet (eval_condition (.threshold f "gt" 5 60) e4 t4
          (eval_condition (.threshold f "gt" 5 60) e3 t3
            (eval_condition (.threshold f "gt" 5 60) e2 t2
              (eval_condition (.threshold f "gt" 5 60) e1 t1 []).2).2).2).2 u f
            = [t2, t3, t4] := by
      rcases H3 with h | h
      · obtain ⟨hW4, -⟩ := threshold_step_win f 5 60 u e4 t4 _ v4 [t1, t2, t3] hu4 hv4 htr4 h
        rw [show [t1, t2, t3] ++ [t4] = [t1, t2, t3, t4] from rfl] at hW4
        by_cases hc : t1 < t4 - 60
        · right
          rw [dropWhile_drop _ _ _ hc,
            dropWhile_keep _ _ _ (by omega : ¬ t2 < t4 - 60)] at hW4
          exact hW4
        · left
          rw [dropWhile_keep _ _ _ hc] at hW4
          exact hW4
      · obtain ⟨hW4, -⟩ := threshold_step_win f 5 60 u e4 t4 _ v4 [t2, t3] hu4 hv4 htr4 h
        rw [show [t2, t3] ++ [t4] = [t2, t3, t4] from rfl,
          dropWhile_keep _ _ _ (by omega : ¬ t2 < t4 - 60)] at hW4
        right
        exact hW4
    have H5 : winGet (eval_condition (.threshold f "gt" 5 60) e5 t5
          (eval_condition (.threshold f "gt" 5 60) e4 t4
            (eval_condition (.threshold f "gt" 5 60) e3 t3
              (eval_condition (.threshold f "gt" 5 60) e2 t2
                (eval_condition (.threshold f "gt" 5 60) e1 t1 []).2).2).2).2).2 u f
            = [t1, t2, t3, t4, t5]
        ∨ winGet (eval_condition (.threshold f "gt" 5 60) e5 t5
          (eval_condition (.threshold f "gt" 5 60) e4 t4
            (eval_condition (.threshold f "gt" 5 60) e3 t3
              (eval_condition (.threshold f "gt" 5 60) e2 t2
                (eval_condition (.threshold f "gt" 5 60) e1 t1 []).2).2).2).2).2 u f
            = [t2, t3, t4, t5] := by
      rcases H4 with h | h
      · obtain ⟨hW5, -⟩ :=
          threshold_step_win f 5 60 u e5 t5 _ v5 [t1, t2, t3, t4] hu5 hv5 htr5 h
        rw [show [t1, t2, t3, t4] ++ [t5] = [t1, t2, t3, t4, t5] from rfl] at hW5
        by_cases hc : t1 < t5 - 60
        · right
          rw [dropWhile_drop _ _ _ hc,
            dropWhile_keep _ _ _ (by omega : ¬ t2 < t5 - 60)] at hW5
          exact hW5
        · left
          rw [dropWhile_keep _ _ _ hc] at hW5
          exact hW5
      · obtain ⟨hW5, -⟩ := threshold_step_win f 5 60 u e5 t5 _ v5 [t2, t3, t4] hu5 hv5 htr5 h
        rw [show [t2, t3, t4] ++ [t5] = [t2, t3, t4, t5] from rfl,
          dropWhile_keep _ _ _ (by omega : ¬ t2 < t5 - 60)] at hW5
        right
        exact hW5
    simp only [ingest_events, List.foldl_cons, List.foldl_nil]
    rcases H5 with h | h
    · obtain ⟨-, hfin⟩ :=
        threshold_step_win f 5 60 u e6 t6 _ v6 [t1, t2, t3, t4, t5] hu6 hv6 htr6 h
      rw [show [t1, t2, t3, t4, t5] ++ [t6] = [t1, t2, t3, t4, t5, t6] from rfl,
        dropWhile_drop _ _ _ (by omega : t1 < t6 - 60),
        dropWhile_keep _ _ _ (by omega : ¬ t2 < t6 - 60)] at hfin
      rw [hfin]
      simp
    · obtain ⟨-, hfin⟩ :=
        threshold_step_win f 5 60 u e6 t6 _ v6 [t2, t3, t4, t5] hu6 hv6 htr6 h
      rw [show [t2, t3, t4, t5] ++ [t6] = [t2, t3, t4, t5, t6] from rfl,
        dropWhile_keep _ _ _ (by omega : ¬ t2 < t6 - 60)] at hfin
      rw [hfin]
      simp

theorem window_threshold_six_events_witness :
    ((50 : Int) - 0 ≤ 60)
    ∧ (eval_condition (.threshold "hits" "gt" 5 60)
        [("uid", Json.str "u"), ("hits", Json.num 1)] 50
        (ingest_events (.threshold "hits" "gt" 5 60)
          [([("uid", Json.str "u"), ("hits", Json.num 1)], 0),
           ([("uid", Json.str "u"), ("hits", Json.num 1)], 10),
           ([("uid", Json.str "u"), ("hits", Json.num 1)], 20),
           ([("uid", Json.str "u"), ("hits", Json.num 1)], 30),
           ([("uid", Json.str "u"), ("hits", Json.num 1)], 40)] [])).1 = true :=
  ⟨by decide,
   (window_threshold_six_events "hits" (Json.str "u")
     [("uid", Json.str "u"), ("hits", Json.num 1)]
     [("uid", Json.str "u"), ("hits", Json.num 1)]
     [("uid", Json.str "u"), ("hits", Json.num 1)]
     [("uid", Json.str "u"), ("hits", Json.num 1)]
     [("uid", Json.str "u"), ("hits", Json.num 1)]
     [("uid", Json.str "u"), ("hits", Json.num 1)] 0 10 20 30 40 50
     (Json.num 1) (Json.num 1) (Json.num 1) (Json.num 1) (Json.num 1) (Json.num 1)
     rfl rfl rfl rfl rfl rfl rfl rfl rfl rfl rfl rfl rfl rfl rfl rfl rfl rfl
     (by decide) (by decide) (by decide) (by decide) (by decide)).1 (by decide)⟩

/-! C2: fail-closed on missing or non-valid tokens. -/

/-- C2: with no capability token supplied (neither as argument nor in the
envelope), the issued receipt has `token_status = "missing"`, decision
`BLOCK`, and `"token.missing"` among its reason codes; and whenever the
token verifier reports every supplied token as unavailable or invalid (one
result per supplied token, none of them valid), the decision is `BLOCK`. -/
theorem guard_fail_closed
    (verify_tokens : List String → List String → List TokenVerification)
    (mac : String → String → String) (secret : String) (ctx : EvalContext)
    (envelope : Envelope) (discernment : Option Discernment)
    (capability_tokens : Option (List String)) (revocations : Option (List String)) :
    ((capability_tokens = none ∨ capability_tokens = some []) →
     (envelope.capability_tokens = none ∨ envelope.capability_tokens = some []) →
     envelope.capability_token = none →
       (evaluate_receipt verify_tokens mac secret ctx envelope discernment
          capability_tokens revocations).token_status = "missing"
       ∧ (evaluate_receipt verify_tokens mac secret ctx envelope discernment
          capability_tokens revocations).decision = "BLOCK"
       ∧ "token.missing" ∈ (evaluate_receipt verify_tokens mac secret ctx envelope
          discernment capability_tokens revocations).reason_codes)
    ∧ ((verify_tokens (provided_tokens_of capability_tokens envelope)
          (revocations.getD [])).length
        = (provided_tokens_of capability_tokens envelope).length →
       (∀ v ∈ verify_tokens (provided_tokens_of capability_tokens envelope)
          (revocations.getD []), v.valid = false) →
       (evaluate_receipt verify_tokens mac secret ctx envelope discernment
          capability_tokens revocations).decision = "BLOCK") := by
  constructor
  · intro h1 h2 h3
    have hp : provided_tokens_of capability_tokens envelope = [] := by
      rcases h1 with h1 | h1 <;> rcases h2 with h2 | h2 <;>
        simp [provided_tokens_of, h1, h2, h3]
    simp [evaluate_receipt, hp]
  · intro hlen hinv
    cases hp : provided_tokens_of capability_tokens envelope with
    | nil => simp [evaluate_receipt, hp]
    | cons t ts =>
      rw [hp] at hlen hinv
      cases hv : verify_tokens (t :: ts) (revocations.getD []) with
      | nil => rw [hv] at hlen; simp at hlen
      | cons v vs =>
        have hvf : v.valid = false := hinv v (by rw [hv]; exact List.mem_cons_self v vs)
        simp [evaluate_receipt, hp, hv, hvf]

theorem guard_fail_closed_witness :
    (evaluate_receipt (stubVerify false) macTag "test-secret" ctx0 env0 none
        none none).token_status = "missing"
    ∧ (evaluate_receipt (stubVerify false) macTag "test-secret" ctx0 env0 none
        none none).decision = "BLOCK"
    ∧ "token.missing" ∈ (evaluate_receipt (stubVerify false) macTag "test-secret" ctx0 env0
        none none none).reason_codes :=
  (guard_fail_closed (stubVerify false) macTag "test-secret" ctx0 env0 none none none).1
    (Or.inl rfl) (Or.inl rfl) rfl

/-! C3: when the token stage fires. -/

/-- C3 counterexample: with two supplied tokens of which the first
verifies as valid and the second as invalid, at least one supplied token
is valid, yet the token stage still sets decision `BLOCK` with reason
`token.invalid` (the code requires ALL supplied tokens to be valid, not at
least one). -/
theorem token_stage_any_valid_counterexample :
    ((stubVerifyFirstOnly ["t1", "t2"] []).any (fun v => v.valid) = true)
    ∧ (evaluate_receipt stubVerifyFirstOnly macTag "test-secret" ctx0 env0 none
        (some ["t1", "t2"]) none).decision = "BLOCK"
    ∧ "token.invalid" ∈ (evaluate_receipt stubVerifyFirstOnly macTag "test-secret" ctx0 env0
        none (some ["t1", "t2"]) none).reason_codes := by
  refine ⟨by decide, by decide, by decide⟩

/-- With at least one supplied token and every reported result valid, the
decision is the risk-stage mapping and the deciding reason code is
appended to the receipt's reason codes. -/
theorem eval_decision_all_valid
    (verify_tokens : List String → List String → List TokenVerification)
    (mac : String → String → String) (secret : String) (ctx : EvalContext)
    (envelope : Envelope) (discernment : Option Discernment)
    (capability_tokens : Option (List String)) (revocations : Option (List String))
    (t : String) (ts : List String)
    (hp : provided_tokens_of capability_tokens envelope = t :: ts)
    (hall : (verify_tokens (t :: ts) (revocations.getD [])).all (fun v => v.valid) = true) :
    (evaluate_receipt verify_tokens mac secret ctx envelope discernment
        capability_tokens revocations).decision
      = (risk_stage_decision (parse_risk_level discernment)
          (discernment.bind (fun d => d.posture))
          ((discernment.bind (fun d => d.requires_confirmation)) == some true)).1
    ∧ (risk_stage_decision (parse_risk_level discernment)
          (discernment.bind (fun d => d.posture))
          ((discernment.bind (fun d => d.requires_confirmation)) == some true)).2
        ∈ (evaluate_receipt verify_tokens mac secret ctx envelope discernment
            capability_tokens revocations).reason_codes := by
  constructor
  · simp [evaluate_receipt, hp, hall, risk_stage_decision]
    split_ifs <;> rfl
  · simp [evaluate_receipt, hp, hall, risk_stage_decision]
    split_ifs <;> simp_all

/-- C3 amended: the token stage fires exactly when not every supplied
token verifies as valid: if all supplied tokens verify valid the decision
is taken by the risk stages, and if any reported result is invalid the
decision is `BLOCK` with reason `token.invalid`. -/
theorem token_stage_all_valid_required
    (verify_tokens : List String → List String → List TokenVerification)
    (mac : String → String → String) (secret : String) (ctx : EvalContext)
    (envelope : Envelope) (discernment : Option Discernment)
    (capability_tokens : Option (List String)) (revocations : Option (List String))
    (t : String) (ts : List String)
    (hp : provided_tokens_of capability_tokens envelope = t :: ts) :
    ((verify_tokens (t :: ts) (revocations.getD [])).all (fun v => v.valid) = true →
      (evaluate_receipt verify_tokens mac secret ctx envelope discernment
          capability_tokens revocations).decision
        = (risk_stage_decision (parse_risk_level discernment)
            (discernment.bind (fun d => d.posture))
            ((discernment.bind (fun d => d.requires_confirmation)) == some true)).1)
    ∧ ((verify_tokens (t :: ts) (revocations.getD [])).all (fun v => v.valid) = false →
      (evaluate_receipt verify_tokens mac secret ctx envelope discernment
          capability_tokens revocations).decision = "BLOCK"
      ∧ "token.invalid" ∈ (evaluate_receipt verify_tokens mac secret ctx envelope
          discernment capability_tokens revocations).reason_codes) := by
  constructor
  · intro hall
    exact (eval_decision_all_valid verify_tokens mac secret ctx envelope discernment
      capability_tokens revocations t ts hp hall).1
  · intro hall
    simp [evaluate_receipt, hp, hall]
    by_cases hmem : "token.invalid" ∈ List.foldl (fun acc r => acc ++ r.reason_codes) []
      (verify_tokens (t :: ts) (revocations.getD []))
    · simp [hmem, List.ne_nil_of_mem hmem]
    · simp [hmem]

theorem token_stage_all_valid_required_witness :
    (evaluate_receipt (stubVerify true) macTag "test-secret" ctx0 env0 none
      (some ["token-1"]) none).decision = "ALLOW" := by
  have h := (token_stage_all_valid_required (stubVerify true) macTag "test-secret" ctx0 env0
    none (some ["token-1"]) none "token-1" [] rfl).1 (by decide)
  simpa [risk_stage_decision, parse_risk_level] using h

/-! C4: decision mapping for a single valid token. -/

/-- C4: with exactly one supplied token verifying as valid, the decision
and the deciding reason code are the fixed ordered mapping
`risk_stage_decision` of the parsed discernment signals (critical → BLOCK
`risk.critical`; high → REQUIRE_CONFIRM `risk.high`; medium with posture
low or degraded → REQUIRE_CONFIRM `posture.low`; medium → WARN
`risk.medium`; requires_confirmation → REQUIRE_CONFIRM
`discernment.confirmation`; otherwise ALLOW `risk.low`) — a pure function
of `(risk_level, posture, requires_confirmation)` with no other input. -/
theorem decision_mapping_single_valid_token
    (verify_tokens : List String → List String → List TokenVerification)
    (mac : String → String → String) (secret : String) (ctx : EvalContext)
    (envelope : Envelope) (discernment : Option Discernment)
    (capability_tokens : Option (List String)) (revocations : Option (List String))
    (t : String) (v : TokenVerification)
    (hp : provided_tokens_of capability_tokens envelope = [t])
    (hv : verify_tokens [t] (revocations.getD []) = [v]) (hvalid : v.valid = true) :
    (evaluate_receipt verify_tokens mac secret ctx envelope discernment
        capability_tokens revocations).decision
      = (risk_stage_decision (parse_risk_level discernment)
          (discernment.bind (fun d => d.posture))
          ((discernment.bind (fun d => d.requires_confirmation)) == some true)).1
    ∧ (risk_stage_decision (parse_risk_level discernment)
          (discernment.bind (fun d => d.posture))
          ((discernment.bind (fun d => d.requires_confirmation)) == some true)).2
        ∈ (evaluate_receipt verify_tokens mac secret ctx envelope discernment
            capability_tokens revocations).reason_codes := by
  have hall : (verify_tokens [t] (revocations.getD [])).all (fun r => r.valid) = true := by
    rw [hv]
    simp [hvalid]
  exact eval_decision_all_valid verify_tokens mac secret ctx envelope discernment
    capability_tokens revocations t [] hp hall

theorem decision_mapping_single_valid_token_witness :
    (evaluate_receipt (stubVerify true) macTag "test-secret" ctx0 env0
      (some ⟨some "high", none, none, none⟩) (some ["token-1"]) none).decision
      = "REQUIRE_CONFIRM"
    ∧ "risk.high" ∈ (evaluate_receipt (stubVerify true) macTag "test-secret" ctx0 env0
      (some ⟨some "high", none, none, none⟩) (some ["token-1"]) none).reason_codes := by
  have h := decision_mapping_single_valid_token (stubVerify true) macTag "test-secret" ctx0
    env0 (some ⟨some "high", none, none, none⟩) (some ["token-1"]) none "token-1"
    ⟨"token-1", true, "token-ref-1", ["token.valid"], []⟩ rfl rfl rfl
  simpa [risk_stage_decision, parse_risk_level, lowerStr, lowerChar] using h

/-! C8: missing discernment report. -/

/-- C8 counterexample: with a valid supplied token and no discernment
report, the decision is ALLOW but the receipt's reason codes are
`["token.valid", "risk.low"]`: no `discernment.none` reason is emitted
anywhere in the source. -/
theorem discernment_none_reason_counterexample :
    (evaluate_receipt (stubVerify true) macTag "test-secret" ctx0 env0 none
        (some ["token-1"]) none).decision = "ALLOW"
    ∧ (evaluate_receipt (stubVerify true) macTag "test-secret" ctx0 env0 none
        (some ["token-1"]) none).reason_codes = ["token.valid", "risk.low"]
    ∧ "discernment.none" ∉ (evaluate_receipt (stubVerify true) macTag "test-secret" ctx0 env0
        none (some ["token-1"]) none).reason_codes := by
  refine ⟨by decide, by decide, by decide⟩

/-- C8 amended: with a valid supplied token and no discernment report the
evaluation still yields a decision, which defaults to ALLOW, and the
receipt's reason codes include `risk.low` (the source appends `risk.low`
in the default branch; no `discernment.none` reason code exists in it). -/
theorem no_discernment_defaults_allow
    (verify_tokens : List String → List String → List TokenVerification)
    (mac : String → String → String) (secret : String) (ctx : EvalContext)
    (envelope : Envelope)
    (capability_tokens : Option (List String)) (revocations : Option (List String))
    (t : String) (ts : List String)
    (hp : provided_tokens_of capability_tokens envelope = t :: ts)
    (hall : (verify_tokens (t :: ts) (revocations.getD [])).all (fun v => v.valid) = true) :
    (evaluate_receipt verify_tokens mac secret ctx envelope none
        capability_tokens revocations).decision = "ALLOW"
    ∧ "risk.low" ∈ (evaluate_receipt verify_tokens mac secret ctx envelope none
        capability_tokens revocations).reason_codes := by
  have h := eval_decision_all_valid verify_tokens mac secret ctx envelope none
    capability_tokens revocations t ts hp hall
  simpa [risk_stage_decision, parse_risk_level] using h

theorem no_discernment_defaults_allow_witness :
    (evaluate_receipt (stubVerify true) macTag "test-secret" ctx0 env0 none
        (some ["token-1"]) none).decision = "ALLOW"
    ∧ "risk.low" ∈ (evaluate_receipt (stubVerify true) macTag "test-secret" ctx0 env0 none
        (some ["token-1"]) none).reason_codes :=
  no_discernment_defaults_allow (stubVerify true) macTag "test-secret" ctx0 env0
    (some ["token-1"]) none "token-1" [] rfl (by decide)

/-! C9: narrowest-surface default. -/

/-- C9: when the envelope specifies no `allowed_commands`, no `command`
and no `allowed_paths`, and the resulting decision is ALLOW, the issued
receipt's constraints carry `allowed_paths = [working_dir]` (the
envelope's working directory, resolved) and no `allowed_commands` key at
all — the empty value is omitted rather than emitted as null. -/
theorem narrowest_surface_default
    (verify_tokens : List String → List String → List TokenVerification)
    (mac : String → String → String) (secret : String) (ctx : EvalContext)
    (envelope : Envelope) (discernment : Option Discernment)
    (capability_tokens : Option (List String)) (revocations : Option (List String))
    (hcmds : envelope.allowed_commands = none) (hcmd : envelope.command = none)
    (hpaths : envelope.allowed_paths = none)
    (hdec : (evaluate_receipt verify_tokens mac secret ctx envelope discernment
        capability_tokens revocations).decision = "ALLOW") :
    dictGet (evaluate_receipt verify_tokens mac secret ctx envelope discernment
        capability_tokens revocations).constraints "allowed_paths"
      = some (Json.arr [Json.str (pathStr (envelope.working_dir.getD ctx.cwd))])
    ∧ dictGet (evaluate_receipt verify_tokens mac secret ctx envelope discernment
        capability_tokens revocations).constraints "allowed_commands" = none := by
  simp [evaluate_receipt, hcmds, hcmd, hpaths] at hdec ⊢
  simp [hdec, dictGet]

theorem narrowest_surface_default_witness :
    dictGet (evaluate_receipt (stubVerify true) macTag "test-secret" ctx0 env0 none
        (some ["token-1"]) none).constraints "allowed_paths"
      = some (Json.arr [Json.str "/work"])
    ∧ dictGet (evaluate_receipt (stubVerify true) macTag "test-secret" ctx0 env0 none
        (some ["token-1"]) none).constraints "allowed_commands" = none :=
  narrowest_surface_default (stubVerify true) macTag "test-secret" ctx0 env0 none
    (some ["token-1"]) none rfl rfl rfl (by decide)

/-! C7: receipt verification failure reasons. -/

/-- C7 counterexample: on a structurally invalid receipt document (here
the empty document), `verify_receipt` fails with the message of the
`ValueError` raised by `_validate_schema` — a string beginning
"Schema validation failed: " — and not with the literal reason
`"missing_fields"`. -/
theorem verify_reason_not_missing_fields :
    (verify_receipt macTag "test-secret" []).1 = false
    ∧ (verify_receipt macTag "test-secret" []).2 ≠ "missing_fields" := by
  refine ⟨by decide, by decide⟩

/-- C7 amended: `verify_receipt` fails with the schema-violation message
(not the literal `"missing_fields"`) when structural validation fails,
with `"invalid_signature_metadata"` when the signature object's `alg` is
not HMAC-SHA256 or its `value` is absent, and with
`"signature_mismatch"` when the recomputed MAC differs from the stored
value; it succeeds exactly when structural validation passes, the
signature metadata is acceptable, and the stored value equals the MAC
recomputed over the canonical byte form of the receipt minus its
`signature` field. -/
theorem verify_receipt_failure_reasons (mac : String → String → String)
    (secret : String) (receipt : List (String × Json)) :
    (∀ msg, validate_guard_receipt receipt = some msg →
      verify_receipt mac secret receipt = (false, msg))
    ∧ (validate_guard_receipt receipt = none →
        signature_metadata_ok (receipt_signature_obj receipt) = false →
        verify_receipt mac secret receipt = (false, "invalid_signature_metadata"))
    ∧ (validate_guard_receipt receipt = none →
        signature_metadata_ok (receipt_signature_obj receipt) = true →
        signature_value_matches mac secret receipt = false →
        verify_receipt mac secret receipt = (false, "signature_mismatch"))
    ∧ (verify_receipt mac secret receipt = (true, "ok") ↔
        validate_guard_receipt receipt = none
        ∧ signature_metadata_ok (receipt_signature_obj receipt) = true
        ∧ signature_value_matches mac secret receipt = true) := by
  refine ⟨?_, ?_, ?_, ?_⟩
  · intro msg hmsg
    simp [verify_receipt, hmsg]
  · intro hval hmeta
    simp [verify_receipt, hval, hmeta]
  · intro hval hmeta hvm
    simp [verify_receipt, hval, hmeta, hvm]
  · constructor
    · intro h
      cases hval : validate_guard_receipt receipt with
      | some msg => simp [verify_receipt, hval] at h
      | none =>
        cases hmeta : signature_metadata_ok (receipt_signature_obj receipt) with
        | false => simp [verify_receipt, hval, hmeta] at h
        | true =>
          cases hvm : signature_value_matches mac secret receipt with
          | false => simp [verify_receipt, hval, hmeta, hvm] at h
          | true => exact ⟨rfl, rfl, rfl⟩
    · rintro ⟨hval, hmeta, hvm⟩
      simp [verify_receipt, hval, hmeta, hvm]

theorem verify_receipt_failure_reasons_witness :
    validate_guard_receipt [] = some ((verify_receipt macTag "test-secret" []).2)
    ∧ verify_receipt macTag "test-secret" []
        = (false, (verify_receipt macTag "test-secret" []).2) := by
  refine ⟨by decide, ?_⟩
  exact (verify_receipt_failure_reasons macTag "test-secret" []).1
    ((verify_receipt macTag "test-secret" []).2) (by decide)

/-! C1: signature round trip and tamper evidence. -/

theorem serializeObj_cons_ne (k0 : String) (w : Json) (tail : List (String × Json))
    (h : tail ≠ []) :
    serializeObj ((k0, w) :: tail)
      = jsonQuote k0 ++ ":" ++ serializeJson w ++ "," ++ serializeObj tail := by
  cases tail with
  | nil => exact absurd rfl h
  | cons p ps => rfl

/-- Two object serializations that agree everywhere and differ only in the
value at one key position have equal value serializations there. -/
theorem serializeObj_slot_inj (pre post : List (String × Json)) (k : String) (x y : Json)
    (h : serializeObj (pre ++ (k, x) :: post) = serializeObj (pre ++ (k, y) :: post)) :
    serializeJson x = serializeJson y := by
  induction pre with
  | nil =>
    cases post with
    | nil =>
      have h2 : jsonQuote k ++ ":" ++ serializeJson x
          = jsonQuote k ++ ":" ++ serializeJson y := h
      have hd := congrArg String.data h2
      simp only [String.data_append, List.append_assoc] at hd
      exact String.ext (List.append_cancel_left (List.append_cancel_left hd))
    | cons p ps =>
      have h2 : jsonQuote k ++ ":" ++ serializeJson x ++ "," ++ serializeObj (p :: ps)
          = jsonQuote k ++ ":" ++ serializeJson y ++ "," ++ serializeObj (p :: ps) := h
      have hd := congrArg String.data h2
      simp only [String.data_append, List.append_assoc] at hd
      have hd2 := List.append_cancel_left (List.append_cancel_left hd)
      exact String.ext (List.append_cancel_right hd2)
  | cons kv pre' ih =>
    obtain ⟨k0, w⟩ := kv
    have hne1 : pre' ++ (k, x) :: post ≠ [] := by simp
    have hne2 : pre' ++ (k, y) :: post ≠ [] := by simp
    rw [List.cons_append, List.cons_append, serializeObj_cons_ne k0 w _ hne1,
      serializeObj_cons_ne k0 w _ hne2] at h
    have hd := congrArg String.data h
    simp only [String.data_append, List.append_assoc] at hd
    have hd2 := List.append_cancel_left (List.append_cancel_left
      (List.append_cancel_left (List.append_cancel_left hd)))
    exact ih (String.ext hd2)

/-- Two receipt payloads (receipt minus signature) that differ only in
their `constraints` object have equal canonical JSON only if the
constraints' canonical JSON agrees: the sorted serialization isolates the
constraints slot between fixed neighbours. -/
theorem canonical_constraints_slot_inj (v0 v1 v2 v3 v4 v5 v6 v7 v9 : Json)
    (c1 c2 : List (String × Json))
    (h : canonical_json
        [("$schema", v0), ("receipt_id", v1), ("issued_at", v2), ("decision", v3),
         ("trace_id", v4), ("capability_token_ref", v5), ("token_status", v6),
         ("reason_codes", v7), ("constraints", Json.obj c1), ("discernment", v9)]
      = canonical_json
        [("$schema", v0), ("receipt_id", v1), ("issued_at", v2), ("decision", v3),
         ("trace_id", v4), ("capability_token_ref", v5), ("token_status", v6),
         ("reason_codes", v7), ("constraints", Json.obj c2), ("discernment", v9)]) :
    canonical_json c1 = canonical_json c2 := by
  have h1 : "\x7b" ++ serializeObj
        [("$schema", v0.normalize), ("capability_token_ref", v5.normalize),
         ("constraints", (Json.obj c1).normalize), ("decision", v3.normalize),
         ("discernment", v9.normalize), ("issued_at", v2.normalize),
         ("reason_codes", v7.normalize), ("receipt_id", v1.normalize),
         ("token_status", v6.normalize), ("trace_id", v4.normalize)] ++ "\x7d"
      = "\x7b" ++ serializeObj
        [("$schema", v0.normalize), ("capability_token_ref", v5.normalize),
         ("constraints", (Json.obj c2).normalize), ("decision", v3.normalize),
         ("discernment", v9.normalize), ("issued_at", v2.normalize),
         ("reason_codes", v7.normalize), ("receipt_id", v1.normalize),
         ("token_status", v6.normalize), ("trace_id", v4.normalize)] ++ "\x7d" := h
  have hd := congrArg String.data h1
  simp only [String.data_append, List.append_assoc] at hd
  have hd2 := List.append_cancel_left hd
  have hd3 := List.append_cancel_right hd2
  have hmid := String.ext hd3
  exact serializeObj_slot_inj
    [("$schema", v0.normalize), ("capability_token_ref", v5.normalize)]
    [("decision", v3.normalize), ("discernment", v9.normalize),
     ("issued_at", v2.normalize), ("reason_codes", v7.normalize),
     ("receipt_id", v1.normalize), ("token_status", v6.normalize),
     ("trace_id", v4.normalize)]
    "constraints" (Json.obj c1).normalize (Json.obj c2).normalize hmid

theorem all_str_map (l : List String) : (l.map Json.str).all isStrJson = true := by
  induction l with
  | nil => rfl
  | cons a t ih => simp [isStrJson, ih]

theorem isReasonCodes_map (l : List String) (h : l ≠ []) :
    isReasonCodesJson (Json.arr (l.map Json.str)) = true := by
  cases l with
  | nil => exact absurd rfl h
  | cons a t => simp [isReasonCodesJson, isStrJson, all_str_map t]

/-- A document of the receipt wire shape passes the modelled structural
validation whenever its reason-code list is non-empty. -/
theorem validate_fields_none (sid rid dec tid ctr tst : String) (iat : Int)
    (rc : List String) (cons disc sig : List (String × Json)) (h : rc ≠ []) :
    validate_guard_receipt
      [("$schema", Json.str sid), ("receipt_id", Json.str rid), ("issued_at", Json.num iat),
       ("decision", Json.str dec), ("trace_id", Json.str tid),
       ("capability_token_ref", Json.str ctr), ("token_status", Json.str tst),
       ("reason_codes", Json.arr (rc.map Json.str)), ("constraints", Json.obj cons),
       ("discernment", Json.obj disc), ("signature", Json.obj sig)] = none := by
  simp [validate_guard_receipt, required_receipt_fields, dictGet, isStrJson, isNumJson,
    isObjJson, isReasonCodes_map rc h]

theorem reason_list_ne (X : List String) :
    (if X.isEmpty then ["unspecified"] else X) ≠ [] := by
  cases X <;> simp

theorem evaluate_reason_codes_ne
    (verify_tokens : List String → List String → List TokenVerification)
    (mac : String → String → String) (secret : String) (ctx : EvalContext)
    (envelope : Envelope) (discernment : Option Discernment)
    (capability_tokens : Option (List String)) (revocations : Option (List String)) :
    (evaluate_receipt verify_tokens mac secret ctx envelope discernment
      capability_tokens revocations).reason_codes ≠ [] := by
  simp only [evaluate_receipt]
  exact reason_list_ne _

/-- The signature object `evaluate_receipt` installs: the HMAC-SHA256
algorithm tag together with the MAC of the canonical form of the receipt
minus its signature field. -/
theorem evaluate_signature_spec
    (verify_tokens : List String → List String → List TokenVerification)
    (mac : String → String → String) (secret : String) (ctx : EvalContext)
    (envelope : Envelope) (discernment : Option Discernment)
    (capability_tokens : Option (List String)) (revocations : Option (List String)) :
    (evaluate_receipt verify_tokens mac secret ctx envelope discernment
        capability_tokens revocations).signature
      = [("alg", Json.str SIGNATURE_ALG),
         ("value", Json.str (sign_payload mac
           (dictRemove (evaluate_receipt verify_tokens mac secret ctx envelope discernment
             capability_tokens revocations).to_dict "signature") secret))] := by
  rfl

/-- C1: the receipt issued by `evaluate_receipt` round-trips through
`verify_receipt` under the same secret with `(true, "ok")`; its stored
signature value equals the MAC of the canonical JSON (sorted keys, compact
separators) of the receipt dict with the signature field removed; and
replacing the constraints object by one with different canonical JSON
(for example a changed `timeout_s` value) before verifying yields
`(false, "signature_mismatch")`, under the assumption that the MAC does
not collide on distinct messages for this secret. -/
theorem receipt_signature_roundtrip_and_tamper
    (verify_tokens : List String → List String → List TokenVerification)
    (mac : String → String → String) (secret : String) (ctx : EvalContext)
    (envelope : Envelope) (discernment : Option Discernment)
    (capability_tokens : Option (List String)) (revocations : Option (List String))
    (hinj : ∀ m1 m2 : String, mac secret m1 = mac secret m2 → m1 = m2) :
    verify_receipt mac secret (evaluate_receipt verify_tokens mac secret ctx envelope
        discernment capability_tokens revocations).to_dict = (true, "ok")
    ∧ dictGet (evaluate_receipt verify_tokens mac secret ctx envelope discernment
          capability_tokens revocations).signature "value"
        = some (Json.str (mac secret (canonical_json
            (dictRemove (evaluate_receipt verify_tokens mac secret ctx envelope discernment
              capability_tokens revocations).to_dict "signature"))))
    ∧ ∀ c2 : List (String × Json),
        canonical_json c2 ≠ canonical_json (evaluate_receipt verify_tokens mac secret ctx
            envelope discernment capability_tokens revocations).constraints →
        verify_receipt mac secret
            (dictSet (evaluate_receipt verify_tokens mac secret ctx envelope discernment
              capability_tokens revocations).to_dict "constraints" (Json.obj c2))
          = (false, "signature_mismatch") := by
  have hrc : (evaluate_receipt verify_tokens mac secret ctx envelope discernment
      capability_tokens revocations).reason_codes ≠ [] :=
    evaluate_reason_codes_ne verify_tokens mac secret ctx envelope discernment
      capability_tokens revocations
  have hsig := evaluate_signature_spec verify_tokens mac secret ctx envelope discernment
    capability_tokens revocations
  have hval : validate_guard_receipt (evaluate_receipt verify_tokens mac secret ctx envelope
      discernment capability_tokens revocations).to_dict = none :=
    validate_fields_none GUARD_RECEIPT_SCHEMA_ID
      (evaluate_receipt verify_tokens mac secret ctx envelope discernment
        capability_tokens revocations).receipt_id
      (evaluate_receipt verify_tokens mac secret ctx envelope discernment
        capability_tokens revocations).decision
      (evaluate_receipt verify_tokens mac secret ctx envelope discernment
        capability_tokens revocations).trace_id
      (evaluate_receipt verify_tokens mac secret ctx envelope discernment
        capability_tokens revocations).capability_token_ref
      (evaluate_receipt verify_tokens mac secret ctx envelope discernment
        capability_tokens revocations).token_status
      (evaluate_receipt verify_tokens mac secret ctx envelope discernment
        capability_tokens revocations).issued_at
      (evaluate_receipt verify_tokens mac secret ctx envelope discernment
        capability_tokens revocations).reason_codes
      (evaluate_receipt verify_tokens mac secret ctx envelope discernment
        capability_tokens revocations).constraints
      (evaluate_receipt verify_tokens mac secret ctx envelope discernment
        capability_tokens revocations).discernment
      (evaluate_receipt verify_tokens mac secret ctx envelope discernment
        capability_tokens revocations).signature hrc
  have hobj : receipt_signature_obj (evaluate_receipt verify_tokens mac secret ctx envelope
      discernment capability_tokens revocations).to_dict
      = (evaluate_receipt verify_tokens mac secret ctx envelope discernment
        capability_tokens revocations).signature := rfl
  refine ⟨?_, ?_, ?_⟩
  · have hmeta : signature_metadata_ok (receipt_signature_obj
        (evaluate_receipt verify_tokens mac secret ctx envelope discernment
          capability_tokens revocations).to_dict) = true := by
      rw [hobj, hsig]
      rfl
    have hvm : signature_value_matches mac secret (evaluate_receipt verify_tokens mac secret
        ctx envelope discernment capability_tokens revocations).to_dict = true := by
      unfold signature_value_matches
      rw [hobj, hsig]
      simp [dictGet, sign_payload]
    simp [verify_receipt, hval, hmeta, hvm]
  · rw [hsig]
    simp [dictGet, sign_payload]
  · intro c2 hdiff
    have htam_val : validate_guard_receipt (dictSet (evaluate_receipt verify_tokens mac
        secret ctx envelope discernment capability_tokens revocations).to_dict
        "constraints" (Json.obj c2)) = none :=
      validate_fields_none GUARD_RECEIPT_SCHEMA_ID
        (evaluate_receipt verify_tokens mac secret ctx envelope discernment
          capability_tokens revocations).receipt_id
        (evaluate_receipt verify_tokens mac secret ctx envelope discernment
          capability_tokens revocations).decision
        (evaluate_receipt verify_tokens mac secret ctx envelope discernment
          capability_tokens revocations).trace_id
        (evaluate_receipt verify_tokens mac secret ctx envelope discernment
          capability_tokens revocations).capability_token_ref
        (evaluate_receipt verify_tokens mac secret ctx envelope discernment
          capability_tokens revocations).token_status
        (evaluate_receipt verify_tokens mac secret ctx envelope discernment
          capability_tokens revocations).issued_at
        (evaluate_receipt verify_tokens mac secret ctx envelope discernment
          capability_tokens revocations).reason_codes
        c2
        (evaluate_receipt verify_tokens mac secret ctx envelope discernment
          capability_tokens revocations).discernment
        (evaluate_receipt verify_tokens mac secret ctx envelope discernment
          capability_tokens revocations).signature hrc
    have htam_obj : receipt_signature_obj (dictSet (evaluate_receipt verify_tokens mac
        secret ctx envelope discernment capability_tokens revocations).to_dict
        "constraints" (Json.obj c2))
        = (evaluate_receipt verify_tokens mac secret ctx envelope discernment
          capability_tokens revocations).signature := rfl
    have htam_meta : signature_metadata_ok (receipt_signature_obj (dictSet
        (evaluate_receipt verify_tokens mac secret ctx envelope discernment
          capability_tokens revocations).to_dict "constraints" (Json.obj c2))) = true := by
      rw [htam_obj, hsig]
      rfl
    have hvm2 : signature_value_matches mac secret (dictSet (evaluate_receipt verify_tokens
        mac secret ctx envelope discernment capability_tokens revocations).to_dict
        "constraints" (Json.obj c2)) = false := by
      show (sign_payload mac (dictRemove (evaluate_receipt verify_tokens mac secret ctx
            envelope discernment capability_tokens revocations).to_dict "signature") secret
          == sign_payload mac (dictRemove (dictSet (evaluate_receipt verify_tokens mac
            secret ctx envelope discernment capability_tokens revocations).to_dict
            "constraints" (Json.obj c2)) "signature") secret) = false
      rw [beq_eq_false_iff_ne]
      intro hEq
      apply hdiff
      simp only [sign_payload] at hEq
      have hc := hinj _ _ hEq
      have hslot := canonical_constraints_slot_inj
        (Json.str GUARD_RECEIPT_SCHEMA_ID)
        (Json.str (evaluate_receipt verify_tokens mac secret ctx envelope discernment
          capability_tokens revocations).receipt_id)
        (Json.num (evaluate_receipt verify_tokens mac secret ctx envelope discernment
          capability_tokens revocations).issued_at)
        (Json.str (evaluate_receipt verify_tokens mac secret ctx envelope discernment
          capability_tokens revocations).decision)
        (Json.str (evaluate_receipt verify_tokens mac secret ctx envelope discernment
          capability_tokens revocations).trace_id)
        (Json.str (evaluate_receipt verify_tokens mac secret ctx envelope discernment
          capability_tokens revocations).capability_token_ref)
        (Json.str (evaluate_receipt verify_tokens mac secret ctx envelope discernment
          capability_tokens revocations).token_status)
        (Json.arr ((evaluate_receipt verify_tokens mac secret ctx envelope discernment
          capability_tokens revocations).reason_codes.map Json.str))
        (Json.obj (evaluate_receipt verify_tokens mac secret ctx envelope discernment
          capability_tokens revocations).discernment)
        (evaluate_receipt verify_tokens mac secret ctx envelope discernment
          capability_tokens revocations).constraints
        c2 hc
      exact hslot.symm
    simp [verify_receipt, htam_val, htam_meta, hvm2]

theorem str_app_cancel_left (a : String) {x y : String} (h : a ++ x = a ++ y) : x = y := by
  have h2 := congrArg String.data h
  simp only [String.data_append] at h2
  exact String.ext (List.append_cancel_left h2)

theorem receipt_signature_roundtrip_and_tamper_witness :
    verify_receipt macTag "test-secret" (evaluate_receipt (stubVerify true) macTag
        "test-secret" ctx0 env0 none (some ["token-1"]) none).to_dict = (true, "ok")
    ∧ verify_receipt macTag "test-secret"
        (dictSet (evaluate_receipt (stubVerify true) macTag "test-secret" ctx0 env0 none
          (some ["token-1"]) none).to_dict "constraints"
          (Json.obj (dictSet (evaluate_receipt (stubVerify true) macTag "test-secret" ctx0
            env0 none (some ["token-1"]) none).constraints "timeout_s" (Json.num 999))))
      = (false, "signature_mismatch") := by
  have hinj : ∀ m1 m2 : String,
      macTag "test-secret" m1 = macTag "test-secret" m2 → m1 = m2 := by
    intro m1 m2 h
    exact str_app_cancel_left ("test-secret" ++ "|") h
  have h := receipt_signature_roundtrip_and_tamper (stubVerify true) macTag "test-secret"
    ctx0 env0 none (some ["token-1"]) none hinj
  exact ⟨h.1, h.2.2 _ (by decide)⟩

end BluxGuard
